import Mathlib

/-!
Verification development for the GBA emulator core: a shallow embedding of
the ARM7TDMI Thumb subset (src/core/cpu/arm7tdmi.cpp) and of the memory
subsystem (src/core/mmu/mmu.cpp, src/core/io/io.h), with theorems checking
the natural-language specification against the code.

Machine integers are modelled as Nat with explicit reduction modulo 2^32 at
every operation where the C++ u32 arithmetic wraps.  The CPU consumes the
byte-addressed bus interface (read8/write8, with 16- and 32-bit accesses
composed little-endian from bytes exactly as MMU::read16/read32 and
MMU::write16/write32 compose them), so for the CPU theorems the backing
store is an arbitrary byte function.
-/

namespace Gba

/-! ## Bit geometry and flag constants (arm7tdmi.h) -/

def mask32 : Nat := 2 ^ 32 - 1

def kFlagN : Nat := 2 ^ 31
def kFlagZ : Nat := 2 ^ 30
def kFlagC : Nat := 2 ^ 29
def kFlagV : Nat := 2 ^ 28
def kFlagT : Nat := 2 ^ 5
def kSignBit : Nat := 2 ^ 31

/-- Bitwise complement on 32-bit values, as the C++ unary not on u32. -/
def compl32 (a : Nat) : Nat := mask32 ^^^ a

/-- kWordMask in the header is the complement of 3 on u32. -/
def kWordMask : Nat := compl32 3

/-- u32 addition. -/
def add32 (a b : Nat) : Nat := (a + b) % 2 ^ 32

/-- u32 subtraction (two-complement wraparound). -/
def sub32 (a b : Nat) : Nat := (a + 2 ^ 32 - b % 2 ^ 32) % 2 ^ 32

/-- u32 left shift (the C++ shift discards bits above bit 31). -/
def shl32 (a k : Nat) : Nat := (a <<< k) &&& mask32

/-! ## The byte-addressed memory seen through the bus facade.

MMU::read16/read32 and write16/write32 are little-endian compositions of
read8/write8 at addr, addr+1, ... (u32 address arithmetic); the CPU only
calls this interface, so the store itself is an arbitrary byte function. -/

def Mem : Type := Nat → Nat

/-- read8: a u32 address selects a byte cell. -/
def mread8 (m : Mem) (a : Nat) : Nat := m (a % 2 ^ 32) % 256

/-- write8: store one byte at a u32 address. -/
def mwrite8 (m : Mem) (a v : Nat) : Mem :=
  fun x => if x = a % 2 ^ 32 then v % 256 else m x

/-- MMU::read16 shape: low byte or high byte shifted left by 8. -/
def mread16 (m : Mem) (a : Nat) : Nat :=
  mread8 m a ||| (mread8 m (a + 1)) <<< 8

/-- MMU::read32 shape: four bytes, least significant first. -/
def mread32 (m : Mem) (a : Nat) : Nat :=
  mread8 m a ||| (mread8 m (a + 1)) <<< 8 ||| (mread8 m (a + 2)) <<< 16 |||
    (mread8 m (a + 3)) <<< 24

/-- MMU::write16 shape: two byte stores. -/
def mwrite16 (m : Mem) (a v : Nat) : Mem :=
  mwrite8 (mwrite8 m a (v &&& 0xFF)) (a + 1) ((v >>> 8) &&& 0xFF)

/-- MMU::write32 shape: four byte stores, least significant first. -/
def mwrite32 (m : Mem) (a v : Nat) : Mem :=
  mwrite8 (mwrite8 (mwrite8 (mwrite8 m a (v &&& 0xFF))
    (a + 1) ((v >>> 8) &&& 0xFF)) (a + 2) ((v >>> 16) &&& 0xFF))
    (a + 3) ((v >>> 24) &&& 0xFF)

/-! ## CPU state (arm7tdmi.h): sixteen u32 registers, r15 is the PC. -/

structure ARM7TDMI where
  regs : Fin 16 → Nat
  cpsr : Nat

def fin16 (i : Nat) : Fin 16 := ⟨i % 16, Nat.mod_lt i (by norm_num)⟩

def getR (s : ARM7TDMI) (i : Nat) : Nat := s.regs (fin16 i)

def setR (s : ARM7TDMI) (i : Nat) (v : Nat) : ARM7TDMI :=
  { s with regs := fun j => if j = fin16 i then v else s.regs j }

/-- ARM7TDMI::reset: all registers zero, CPSR holds only the T bit. -/
def cpuReset : ARM7TDMI := { regs := fun _ => 0, cpsr := kFlagT }

/-- debug_set_program_counter: the debug PC write masks bit 0. -/
def debug_set_program_counter (s : ARM7TDMI) (addr : Nat) : ARM7TDMI :=
  setR s 15 (addr &&& compl32 1)

/-! ## Flag helpers (arm7tdmi.cpp lines 16-60) -/

def set_nz (cpsr result : Nat) : Nat :=
  let c0 := cpsr &&& compl32 (kFlagN ||| kFlagZ)
  let c1 := if result = 0 then c0 ||| kFlagZ else c0
  if result &&& kSignBit ≠ 0 then c1 ||| kFlagN else c1

def set_add_cv (cpsr augend addend result : Nat) : Nat :=
  let wideSum := augend + addend
  let c0 := if wideSum >>> 32 ≠ 0 then cpsr ||| kFlagC else cpsr &&& compl32 kFlagC
  let ovMask := (compl32 (augend ^^^ addend) &&& (augend ^^^ result)) &&& kSignBit
  if ovMask ≠ 0 then c0 ||| kFlagV else c0 &&& compl32 kFlagV

def set_sub_cv (cpsr minuend subtrahend result : Nat) : Nat :=
  let c0 := if subtrahend ≤ minuend then cpsr ||| kFlagC else cpsr &&& compl32 kFlagC
  let ovMask := ((minuend ^^^ subtrahend) &&& (minuend ^^^ result)) &&& kSignBit
  if ovMask ≠ 0 then c0 ||| kFlagV else c0 &&& compl32 kFlagV

/-! ## Rotation and unaligned word access (arm7tdmi.cpp lines 65-87) -/

def rotr (value amt : Nat) : Nat :=
  let amt8 := amt &&& 31
  (value >>> amt8) ||| shl32 value ((32 - amt8) &&& 31)

def read_u32_unaligned (m : Mem) (address : Nat) : Nat :=
  let aligned := address &&& kWordMask
  let raw := mread32 m aligned
  rotr raw ((address &&& 3) * 8)

def write_u32_unaligned (m : Mem) (addr value : Nat) : Mem :=
  let aligned := addr &&& kWordMask
  let rotL := (32 - (addr &&& 3) * 8) &&& 31
  mwrite32 m aligned (rotr value rotL)

/-! ## Thumb execute routines (arm7tdmi.cpp lines 91-454) -/

def exec_mov_imm (s : ARM7TDMI) (m : Mem) (insn : Nat) : ARM7TDMI × Mem :=
  let destReg := (insn >>> 8) &&& 7
  let imm8 := insn &&& 0xFF
  let s1 := setR s destReg imm8
  ({ s1 with cpsr := set_nz s1.cpsr (getR s1 destReg) }, m)

def exec_add_imm (s : ARM7TDMI) (m : Mem) (insn : Nat) : ARM7TDMI × Mem :=
  let destReg := (insn >>> 8) &&& 7
  let immValue := insn &&& 0xFF
  let regValue := getR s destReg
  let sum := add32 regValue immValue
  let s1 := setR s destReg sum
  ({ s1 with cpsr := set_add_cv (set_nz s1.cpsr sum) regValue immValue sum }, m)

def exec_sub_imm (s : ARM7TDMI) (m : Mem) (insn : Nat) : ARM7TDMI × Mem :=
  let destReg := (insn >>> 8) &&& 7
  let immValue := insn &&& 0xFF
  let regValue := getR s destReg
  let difference := sub32 regValue immValue
  let s1 := setR s destReg difference
  ({ s1 with cpsr := set_sub_cv (set_nz s1.cpsr difference) regValue immValue difference }, m)

/-- sign_extend12 from the header: classic two-complement sign extend. -/
def sign_extend12 (value : Nat) : Nat :=
  let mask := 2 ^ 12 - 1
  let signMask := 2 ^ 11
  let masked := value &&& mask
  sub32 (masked ^^^ signMask) signMask

def exec_b (s : ARM7TDMI) (m : Mem) (insn : Nat) : ARM7TDMI × Mem :=
  let imm11 := insn &&& 0x7FF
  let offset12 := imm11 <<< 1
  let signedOff := sign_extend12 offset12
  (setR s 15 (add32 (getR s 15) signedOff), m)

def exec_add_reg (s : ARM7TDMI) (m : Mem) (insn : Nat) : ARM7TDMI × Mem :=
  let offsetReg := (insn >>> 6) &&& 7
  let srcReg := (insn >>> 3) &&& 7
  let destReg := insn &&& 7
  let srcValue := getR s srcReg
  let offsetValue := getR s offsetReg
  let result := add32 srcValue offsetValue
  let s1 := setR s destReg result
  ({ s1 with cpsr := set_add_cv (set_nz s1.cpsr result) srcValue offsetValue result }, m)

def exec_sub_reg (s : ARM7TDMI) (m : Mem) (insn : Nat) : ARM7TDMI × Mem :=
  let offsetReg := (insn >>> 6) &&& 7
  let srcReg := (insn >>> 3) &&& 7
  let destReg := insn &&& 7
  let srcValue := getR s srcReg
  let offsetValue := getR s offsetReg
  let result := sub32 srcValue offsetValue
  let s1 := setR s destReg result
  ({ s1 with cpsr := set_sub_cv (set_nz s1.cpsr result) srcValue offsetValue result }, m)

def exec_add_imm3 (s : ARM7TDMI) (m : Mem) (insn : Nat) : ARM7TDMI × Mem :=
  let imm3 := (insn >>> 6) &&& 7
  let srcReg := (insn >>> 3) &&& 7
  let destReg := insn &&& 7
  let srcValue := getR s srcReg
  let result := add32 srcValue imm3
  let s1 := setR s destReg result
  ({ s1 with cpsr := set_add_cv (set_nz s1.cpsr result) srcValue imm3 result }, m)

def exec_sub_imm3 (s : ARM7TDMI) (m : Mem) (insn : Nat) : ARM7TDMI × Mem :=
  let imm3 := (insn >>> 6) &&& 7
  let srcReg := (insn >>> 3) &&& 7
  let destReg := insn &&& 7
  let srcValue := getR s srcReg
  let result := sub32 srcValue imm3
  let s1 := setR s destReg result
  ({ s1 with cpsr := set_sub_cv (set_nz s1.cpsr result) srcValue imm3 result }, m)

def exec_add_high (s : ARM7TDMI) (m : Mem) (insn : Nat) : ARM7TDMI × Mem :=
  let h1 := (insn >>> 7) &&& 1
  let h2 := (insn >>> 6) &&& 1
  let destReg := (insn &&& 7) ||| (h1 <<< 3)
  let srcReg := ((insn >>> 3) &&& 7) ||| (h2 <<< 3)
  let result := add32 (getR s destReg) (getR s srcReg)
  (setR s destReg result, m)

def exec_cmp_high (s : ARM7TDMI) (m : Mem) (insn : Nat) : ARM7TDMI × Mem :=
  let h1 := (insn >>> 7) &&& 1
  let h2 := (insn >>> 6) &&& 1
  let destReg := (insn &&& 7) ||| (h1 <<< 3)
  let srcReg := ((insn >>> 3) &&& 7) ||| (h2 <<< 3)
  let destValue := getR s destReg
  let srcValue := getR s srcReg
  let result := sub32 destValue srcValue
  ({ s with cpsr := set_sub_cv (set_nz s.cpsr result) destValue srcValue result }, m)

def exec_mov_high (s : ARM7TDMI) (m : Mem) (insn : Nat) : ARM7TDMI × Mem :=
  let h1 := (insn >>> 7) &&& 1
  let h2 := (insn >>> 6) &&& 1
  let destReg := (insn &&& 7) ||| (h1 <<< 3)
  let srcReg := ((insn >>> 3) &&& 7) ||| (h2 <<< 3)
  (setR s destReg (getR s srcReg), m)

def exec_bx (s : ARM7TDMI) (m : Mem) (insn : Nat) : ARM7TDMI × Mem :=
  let h2 := (insn >>> 6) &&& 1
  let srcReg := ((insn >>> 3) &&& 7) ||| (h2 <<< 3)
  let targetAddr := getR s srcReg
  if targetAddr &&& 1 != 0 then
    (setR { s with cpsr := s.cpsr ||| kFlagT } 15 (targetAddr &&& compl32 1), m)
  else
    (setR { s with cpsr := s.cpsr &&& compl32 kFlagT } 15 (targetAddr &&& compl32 3), m)

def exec_ldr_literal (s : ARM7TDMI) (m : Mem) (insn : Nat) : ARM7TDMI × Mem :=
  let destReg := (insn >>> 8) &&& 7
  let imm8Words := insn &&& 0xFF
  let offsetBytes := shl32 imm8Words 2
  let pcAfterFetch := getR s 15
  let pcForLdr := add32 pcAfterFetch 2 &&& kWordMask
  let address := add32 pcForLdr offsetBytes
  let s1 := setR s destReg (read_u32_unaligned m address)
  ({ s1 with cpsr := set_nz s1.cpsr (getR s1 destReg) }, m)

def exec_ldr_imm_w (s : ARM7TDMI) (m : Mem) (insn : Nat) : ARM7TDMI × Mem :=
  let imm5Words := (insn >>> 6) &&& 0x1F
  let baseReg := (insn >>> 3) &&& 7
  let destReg := insn &&& 7
  let address := add32 (getR s baseReg) (shl32 imm5Words 2)
  let s1 := setR s destReg (read_u32_unaligned m address)
  ({ s1 with cpsr := set_nz s1.cpsr (getR s1 destReg) }, m)

def exec_str_imm_w (s : ARM7TDMI) (m : Mem) (insn : Nat) : ARM7TDMI × Mem :=
  let imm5Words := (insn >>> 6) &&& 0x1F
  let baseReg := (insn >>> 3) &&& 7
  let destReg := insn &&& 7
  let address := add32 (getR s baseReg) (shl32 imm5Words 2)
  (s, write_u32_unaligned m address (getR s destReg))

def exec_ldr_imm_b (s : ARM7TDMI) (m : Mem) (insn : Nat) : ARM7TDMI × Mem :=
  let imm5 := (insn >>> 6) &&& 0x1F
  let baseReg := (insn >>> 3) &&& 7
  let destReg := insn &&& 7
  let address := add32 (getR s baseReg) imm5
  let s1 := setR s destReg (mread8 m address)
  ({ s1 with cpsr := set_nz s1.cpsr (getR s1 destReg) }, m)

def exec_str_imm_b (s : ARM7TDMI) (m : Mem) (insn : Nat) : ARM7TDMI × Mem :=
  let imm5 := (insn >>> 6) &&& 0x1F
  let baseReg := (insn >>> 3) &&& 7
  let srcReg := insn &&& 7
  let address := add32 (getR s baseReg) imm5
  (s, mwrite8 m address (getR s srcReg &&& 0xFF))

/-- The loop bound of the push and pop register scans: i = 0 .. 7. -/
def thumbRegRange : List Nat := [0, 1, 2, 3, 4, 5, 6, 7]

/-- The register-count loop of exec_push. -/
def bitCount8 (rlist : Nat) : Nat :=
  thumbRegRange.foldl (fun acc i => if rlist &&& (1 <<< i) != 0 then acc + 1 else acc) 0

/-- The store loop of exec_push, carrying the running address and memory. -/
def stmLoop (s : ARM7TDMI) (rlist : Nat) : List Nat → Nat × Mem → Nat × Mem
  | [], am => am
  | i :: rest, am =>
      if rlist &&& (1 <<< i) != 0 then
        stmLoop s rlist rest (add32 am.1 4, mwrite32 am.2 am.1 (getR s i))
      else
        stmLoop s rlist rest am

def exec_push (s : ARM7TDMI) (m : Mem) (insn : Nat) : ARM7TDMI × Mem :=
  let rlist := insn &&& 0xFF
  let pushLR := (insn >>> 8) &&& 1 != 0
  let count := bitCount8 rlist + (if pushLR then 1 else 0)
  let sp := sub32 (getR s 13) (count * 4)
  let am := stmLoop s rlist thumbRegRange (sp, m)
  let m2 := if pushLR then mwrite32 am.2 am.1 (getR s 14) else am.2
  (setR s 13 sp, m2)

/-- The load loop of exec_pop, carrying the running address and state. -/
def ldmLoop (m : Mem) (rlist : Nat) : List Nat → Nat × ARM7TDMI → Nat × ARM7TDMI
  | [], p => p
  | i :: rest, p =>
      if rlist &&& (1 <<< i) != 0 then
        ldmLoop m rlist rest (add32 p.1 4, setR p.2 i (mread32 m p.1))
      else
        ldmLoop m rlist rest p

def exec_pop (s : ARM7TDMI) (m : Mem) (insn : Nat) : ARM7TDMI × Mem :=
  let rlist := insn &&& 0xFF
  let popPC := (insn >>> 8) &&& 1 != 0
  let p := ldmLoop m rlist thumbRegRange (getR s 13, s)
  if popPC then
    let targetAddr := mread32 m p.1
    let addr2 := add32 p.1 4
    let s2 :=
      if targetAddr &&& 1 != 0 then
        { setR p.2 15 (targetAddr &&& compl32 1) with cpsr := p.2.cpsr ||| kFlagT }
      else
        { setR p.2 15 (targetAddr &&& compl32 3) with cpsr := p.2.cpsr &&& compl32 kFlagT }
    (setR s2 13 addr2, m)
  else
    (setR p.2 13 p.1, m)

def exec_bcond (s : ARM7TDMI) (m : Mem) (insn : Nat) : ARM7TDMI × Mem :=
  let cond := (insn >>> 8) &&& 0xF
  let imm8 := insn &&& 0xFF
  -- int8 cast then int32 shift left by one; two-complement value as Int
  let signedOff8 : Int := if imm8 < 128 then (imm8 : Int) else (imm8 : Int) - 256
  let signedOff : Int := signedOff8 * 2
  let n := s.cpsr &&& kFlagN != 0
  let z := s.cpsr &&& kFlagZ != 0
  let c := s.cpsr &&& kFlagC != 0
  let v := s.cpsr &&& kFlagV != 0
  let conditionMet : Bool :=
    match cond with
    | 0 => z
    | 1 => !z
    | 2 => c
    | 3 => !c
    | 4 => n
    | 5 => !n
    | 6 => v
    | 7 => !v
    | 8 => c && !z
    | 9 => !c || z
    | 10 => n == v
    | 11 => n != v
    | 12 => !z && (n == v)
    | 13 => z || (n != v)
    | 14 => true
    | 15 => false
    | _ + 16 => false
  if conditionMet then
    (setR s 15 ((((getR s 15 : Int) + signedOff) % (2 ^ 32 : Int)).toNat), m)
  else
    (s, m)

/-- ARM7TDMI::step: fetch at PC, advance PC by 2, dispatch on the opcode
masks exactly in the source order (arm7tdmi.cpp lines 458-548). -/
def step (s : ARM7TDMI) (m : Mem) : ARM7TDMI × Mem :=
  let fetchAddr := getR s 15
  let insn := mread16 m fetchAddr
  let s1 := setR s 15 (add32 fetchAddr 2)
  let top5 := insn &&& 0xF800
  let top7 := insn &&& 0xFE00
  let top8 := insn &&& 0xFF00
  let top7pp := insn &&& 0xF600
  let top4 := insn &&& 0xF000
  if top8 = 0x4400 then exec_add_high s1 m insn
  else if top8 = 0x4500 then exec_cmp_high s1 m insn
  else if top8 = 0x4600 then exec_mov_high s1 m insn
  else if top8 = 0x4700 then exec_bx s1 m insn
  else if top7pp = 0xB400 then exec_push s1 m insn
  else if top7pp = 0xB600 then exec_pop s1 m insn
  else if top7 = 0x1800 then exec_add_reg s1 m insn
  else if top7 = 0x1A00 then exec_sub_reg s1 m insn
  else if top7 = 0x1C00 then exec_add_imm3 s1 m insn
  else if top7 = 0x1E00 then exec_sub_imm3 s1 m insn
  else if top5 = 0x2000 then exec_mov_imm s1 m insn
  else if top5 = 0x3000 then exec_add_imm s1 m insn
  else if top5 = 0x3800 then exec_sub_imm s1 m insn
  else if top5 = 0x4800 then exec_ldr_literal s1 m insn
  else if top5 = 0x6000 then exec_str_imm_w s1 m insn
  else if top5 = 0x6800 then exec_ldr_imm_w s1 m insn
  else if top5 = 0x7000 then exec_str_imm_b s1 m insn
  else if top5 = 0x7800 then exec_ldr_imm_b s1 m insn
  else if top4 = 0xD000 then exec_bcond s1 m insn
  else if top5 = 0xE000 then exec_b s1 m insn
  else (s1, m)

/-! ## Memory subsystem (mmu.h constants, io.h registers, mmu.cpp decoding) -/

def BIOS_BASE : Nat := 0x00000000
def BIOS_SIZE : Nat := 0x00004000
def EWRAM_BASE : Nat := 0x02000000
def EWRAM_SIZE : Nat := 0x00040000
def IWRAM_BASE : Nat := 0x03000000
def IWRAM_SIZE : Nat := 0x00008000
def IO_BASE : Nat := 0x04000000
def IO_SIZE : Nat := 0x00000400
def PAL_BASE : Nat := 0x05000000
def PAL_SIZE : Nat := 0x00000400
def VRAM_BASE : Nat := 0x06000000
def VRAM_SIZE : Nat := 0x00018000
def OAM_BASE : Nat := 0x07000000
def OAM_SIZE : Nat := 0x00000400
def WS0_BASE : Nat := 0x08000000
def WS1_BASE : Nat := 0x0A000000
def WS2_BASE : Nat := 0x0C000000
def WS_REGION_SIZE : Nat := 0x02000000
def kWindow16MiB : Nat := 0x01000000
def kVRAMWindow128KiB : Nat := 0x00020000
def kOpenBus : Nat := 0xFF

/-- IORegs (io.h): raw byte store plus the system-driven VCOUNT, HBlank
flag and the DISPSTAT shadow of the writable bits. -/
structure IORegs where
  raw : Nat → Nat
  vcount : Nat
  hblank : Bool
  dispstat_shadow : Nat

/-- IORegs::composed_dispstat: live flags over the writable shadow. -/
def composed_dispstat (io : IORegs) : Nat :=
  let writable := io.dispstat_shadow &&& (8 ||| 16 ||| 32 ||| 0xFF00)
  let lyc := (io.dispstat_shadow &&& 0xFF00) >>> 8
  let c0 := writable
  let c1 := if 160 ≤ io.vcount then c0 ||| 1 else c0
  let c2 := if io.hblank then c1 ||| 2 else c1
  if io.vcount = lyc then c2 ||| 4 else c2

/-- IORegs::read8 relative to the I/O window base. -/
def ioRead8 (io : IORegs) (offset : Nat) : Nat :=
  if offset = 6 then io.vcount &&& 0xFF
  else if offset = 7 then (io.vcount >>> 8) &&& 0xFF
  else if offset = 4 ∨ offset = 5 then
    let disp := composed_dispstat io
    (if offset = 5 then disp >>> 8 else disp) &&& 0xFF
  else io.raw offset % 256

/-- IORegs::reset: clears the raw store and VCOUNT (the HBlank flag and
the DISPSTAT shadow are left as they are in the source). -/
def ioReset (io : IORegs) : IORegs :=
  { io with raw := fun _ => 0, vcount := 0 }

/-- MMU state: fixed byte stores per region, the I/O block and the
variable-length cartridge image. -/
structure MMU where
  bios : Nat → Nat
  biosLoaded : Bool
  ewram : Nat → Nat
  iwram : Nat → Nat
  ioRegs : IORegs
  pal : Nat → Nat
  vram : Nat → Nat
  oam : Nat → Nat
  gamepak : List Nat

/-- MMU::reset. -/
def mmuReset (mu : MMU) : MMU :=
  { bios := fun _ => 0, biosLoaded := false, ewram := fun _ => 0,
    iwram := fun _ => 0, ioRegs := ioReset mu.ioRegs, pal := fun _ => 0,
    vram := fun _ => 0, oam := fun _ => 0, gamepak := [] }

/-- The default-constructed MMU (all member initializers). -/
def mmuInit : MMU :=
  { bios := fun _ => 0, biosLoaded := false, ewram := fun _ => 0,
    iwram := fun _ => 0,
    ioRegs := { raw := fun _ => 0, vcount := 0, hblank := false, dispstat_shadow := 0 },
    pal := fun _ => 0, vram := fun _ => 0, oam := fun _ => 0, gamepak := [] }

/-- MMU::load_gamepak(span): replace the cartridge image. -/
def load_gamepak (mu : MMU) (bytes : List Nat) : MMU := { mu with gamepak := bytes }

/-- MMU::ws_base_of: which 32 MiB wait-state window holds the address. -/
def ws_base_of (addr : Nat) : Nat :=
  if WS2_BASE ≤ addr then WS2_BASE
  else if WS1_BASE ≤ addr then WS1_BASE
  else WS0_BASE

/-- MMU::in_any_ws. -/
def in_any_ws (addr : Nat) : Prop :=
  (WS0_BASE ≤ addr ∧ addr < WS0_BASE + WS_REGION_SIZE) ∨
  (WS1_BASE ≤ addr ∧ addr < WS1_BASE + WS_REGION_SIZE) ∨
  (WS2_BASE ≤ addr ∧ addr < WS2_BASE + WS_REGION_SIZE)

instance (addr : Nat) : Decidable (in_any_ws addr) := by
  unfold in_any_ws; infer_instance

/-- MMU::gamepak_index: mirror by image size inside the window. -/
def gamepak_index (mu : MMU) (addr : Nat) : Nat :=
  if mu.gamepak = [] then 0
  else sub32 addr (ws_base_of addr) % mu.gamepak.length

/-- MMU::vram_offset: 96 KiB store, last 32 KiB of the 128 KiB window
alias the first 32 KiB. -/
def vram_offset (addr : Nat) : Nat :=
  let off := sub32 addr VRAM_BASE
  if off < VRAM_SIZE then off else off - VRAM_SIZE

/-- MMU::pal_offset: 1 KiB mirrored. -/
def pal_offset (addr : Nat) : Nat := sub32 addr PAL_BASE &&& (PAL_SIZE - 1)

/-- MMU::oam_offset: 1 KiB mirrored. -/
def oam_offset (addr : Nat) : Nat := sub32 addr OAM_BASE &&& (OAM_SIZE - 1)

/-- MMU::read8 (mmu.cpp lines 91-136): region decode in source order. -/
def mmuRead8 (mu : MMU) (addr : Nat) : Nat :=
  if BIOS_BASE ≤ addr ∧ addr < BIOS_BASE + BIOS_SIZE then
    if mu.biosLoaded then mu.bios (sub32 addr BIOS_BASE) % 256 else kOpenBus
  else if EWRAM_BASE ≤ addr ∧ addr < EWRAM_BASE + EWRAM_SIZE then
    mu.ewram (sub32 addr EWRAM_BASE) % 256
  else if IWRAM_BASE ≤ addr ∧ addr < IWRAM_BASE + IWRAM_SIZE then
    mu.iwram (sub32 addr IWRAM_BASE) % 256
  else if IO_BASE ≤ addr ∧ addr < IO_BASE + IO_SIZE then
    ioRead8 mu.ioRegs (sub32 addr IO_BASE)
  else if PAL_BASE ≤ addr ∧ addr < PAL_BASE + kWindow16MiB then
    mu.pal (pal_offset addr) % 256
  else if VRAM_BASE ≤ addr ∧ addr < VRAM_BASE + kVRAMWindow128KiB then
    mu.vram (vram_offset addr) % 256
  else if OAM_BASE ≤ addr ∧ addr < OAM_BASE + kWindow16MiB then
    mu.oam (oam_offset addr) % 256
  else if in_any_ws addr then
    if mu.gamepak = [] then kOpenBus
    else mu.gamepak.getD (gamepak_index mu addr) 0
  else kOpenBus

/-- MMU::read16: little-endian composition of two byte reads. -/
def mmuRead16 (mu : MMU) (addr : Nat) : Nat :=
  mmuRead8 mu addr ||| (mmuRead8 mu (add32 addr 1)) <<< 8

/-- MMU::read32: little-endian composition of four byte reads. -/
def mmuRead32 (mu : MMU) (addr : Nat) : Nat :=
  mmuRead8 mu addr ||| (mmuRead8 mu (add32 addr 1)) <<< 8 |||
    (mmuRead8 mu (add32 addr 2)) <<< 16 ||| (mmuRead8 mu (add32 addr 3)) <<< 24

/-! ## Concrete machine fixtures used by the counterexample and witness
theorems below. -/

/-- State for the pop-decode run: SP, LR and PC set, Thumb mode. -/
def s1bug : ARM7TDMI :=
  { regs := fun i =>
      if i = 13 then 0x03000000
      else if i = 14 then 0x12345678
      else if i = 15 then 0x03001000
      else 0,
    cpsr := kFlagT }

/-- Memory for the pop-decode run: POP pc (0xBD00) at the PC, and the
return address 0x03000021 on the stack. -/
def m1bug : Mem := fun a =>
  if a = 0x03001000 then 0x00
  else if a = 0x03001001 then 0xBD
  else if a = 0x03000000 then 0x21
  else if a = 0x03000003 then 0x03
  else 0

/-- State for the load-flags run: r0 points at zero-filled memory. -/
def s4bug : ARM7TDMI := { regs := fun i => if i = 0 then 0x10 else 0, cpsr := kFlagT }

/-- Memory for the load-flags run: LDR r0, [r0, 0] (0x6800) at address 0. -/
def m4bug : Mem := fun a => if a = 1 then 0x68 else 0

/-- Memory for the PC-parity run: MOV r0, 1 (0x2001) then the
high-register ADD pc, r0 (0x4487), starting at address 0. -/
def m5bug : Mem := fun a =>
  if a = 0 then 0x01
  else if a = 1 then 0x20
  else if a = 2 then 0x87
  else if a = 3 then 0x44
  else 0

/-- State for the shift scenario: register 0 holds 0x55. -/
def s9bug : ARM7TDMI := { regs := fun i => if i = 0 then 0x55 else 0, cpsr := kFlagT }

/-- Memory for the shift scenario: LSL r1, r0, 2 encodes as 0x0081. -/
def m9bug : Mem := fun a => if a = 0 then 0x81 else 0

/-- State for the literal-load witness: PC at 0x100. -/
def s6w : ARM7TDMI := { regs := fun i => if i = 15 then 0x100 else 0, cpsr := kFlagT }

/-- Memory for the literal-load witness: LDR r0, [pc, 4] (0x4801) at
0x100 and the word 0xBEEF in the literal pool at 0x108. -/
def m6w : Mem := fun a =>
  if a = 0x100 then 0x01
  else if a = 0x101 then 0x48
  else if a = 0x108 then 0xEF
  else if a = 0x109 then 0xBE
  else 0

/-! ## Bit-level helper lemmas -/

theorem and_two_pow_repr (x i : Nat) :
    x &&& 2 ^ i = if x.testBit i then 2 ^ i else 0 := by
  apply Nat.eq_of_testBit_eq
  intro j
  rcases eq_or_ne j i with rfl | hne
  · rcases h : x.testBit j <;> simp [Nat.testBit_and, h]
  · simp [Nat.testBit_and, Nat.testBit_two_pow_of_ne (Ne.symm hne)]
    split <;> simp [Nat.testBit_two_pow_of_ne (Ne.symm hne)]

theorem and_two_pow_ne_zero (x i : Nat) :
    x &&& 2 ^ i ≠ 0 ↔ x.testBit i = true := by
  rw [and_two_pow_repr]
  rcases h : x.testBit i <;> simp [h]

theorem and_two_pow_congr {x y : Nat} (i : Nat) (h : x.testBit i = y.testBit i) :
    x &&& 2 ^ i = y &&& 2 ^ i := by
  rw [and_two_pow_repr, and_two_pow_repr, h]

theorem testBit_compl32 (a i : Nat) (hi : i < 32) :
    (compl32 a).testBit i = !(a.testBit i) := by
  simp only [compl32, mask32, Nat.testBit_xor, Nat.testBit_two_pow_sub_one]
  simp [hi]

theorem testBit_kFlagN (i : Nat) : kFlagN.testBit i = decide (i = 31) := by
  show Nat.testBit (2 ^ 31) i = decide (i = 31)
  rw [Nat.testBit_two_pow]
  simp [eq_comm]

theorem testBit_kFlagZ (i : Nat) : kFlagZ.testBit i = decide (i = 30) := by
  show Nat.testBit (2 ^ 30) i = decide (i = 30)
  rw [Nat.testBit_two_pow]
  simp [eq_comm]

theorem testBit_kFlagC (i : Nat) : kFlagC.testBit i = decide (i = 29) := by
  show Nat.testBit (2 ^ 29) i = decide (i = 29)
  rw [Nat.testBit_two_pow]
  simp [eq_comm]

theorem testBit_kFlagV (i : Nat) : kFlagV.testBit i = decide (i = 28) := by
  show Nat.testBit (2 ^ 28) i = decide (i = 28)
  rw [Nat.testBit_two_pow]
  simp [eq_comm]

theorem testBit_kFlagT (i : Nat) : kFlagT.testBit i = decide (i = 5) := by
  show Nat.testBit (2 ^ 5) i = decide (i = 5)
  rw [Nat.testBit_two_pow]
  simp [eq_comm]

theorem testBit_kSignBit (i : Nat) : kSignBit.testBit i = decide (i = 31) := by
  show Nat.testBit (2 ^ 31) i = decide (i = 31)
  rw [Nat.testBit_two_pow]
  simp [eq_comm]

/-- set_nz touches no bit outside positions 30 and 31 (below bit 32). -/
theorem set_nz_testBit_low (c r i : Nat) (h30 : i ≠ 30) (h31 : i ≠ 31) (hi : i < 32) :
    (set_nz c r).testBit i = c.testBit i := by
  unfold set_nz
  dsimp only
  split_ifs <;>
    · simp only [Nat.testBit_lor, Nat.testBit_and, testBit_compl32 _ _ hi,
        Nat.testBit_lor, testBit_kFlagN, testBit_kFlagZ]
      simp [h30, h31]

/-- set_add_cv touches no bit outside positions 28 and 29 (below bit 32). -/
theorem set_add_cv_testBit_low (c x y z i : Nat) (h28 : i ≠ 28) (h29 : i ≠ 29)
    (hi : i < 32) : (set_add_cv c x y z).testBit i = c.testBit i := by
  unfold set_add_cv
  dsimp only
  split_ifs <;>
    · simp only [Nat.testBit_lor, Nat.testBit_and, testBit_compl32 _ _ hi,
        testBit_kFlagC, testBit_kFlagV]
      simp [h28, h29]

/-- set_sub_cv touches no bit outside positions 28 and 29 (below bit 32). -/
theorem set_sub_cv_testBit_low (c x y z i : Nat) (h28 : i ≠ 28) (h29 : i ≠ 29)
    (hi : i < 32) : (set_sub_cv c x y z).testBit i = c.testBit i := by
  unfold set_sub_cv
  dsimp only
  split_ifs <;>
    · simp only [Nat.testBit_lor, Nat.testBit_and, testBit_compl32 _ _ hi,
        testBit_kFlagC, testBit_kFlagV]
      simp [h28, h29]

/-- After set_sub_cv the carry bit records minuend ≥ subtrahend. -/
theorem set_sub_cv_testBit_C (c a b r : Nat) :
    (set_sub_cv c a b r).testBit 29 = decide (b ≤ a) := by
  unfold set_sub_cv
  dsimp only
  split_ifs with hov hle hle <;>
    · simp only [Nat.testBit_lor, Nat.testBit_and,
        testBit_compl32 _ 29 (by omega), testBit_kFlagC, testBit_kFlagV]
      simp [hle]

/-- After set_sub_cv the overflow bit records the sign-compare mask. -/
theorem set_sub_cv_testBit_V (c a b r : Nat) :
    (set_sub_cv c a b r).testBit 28 =
      ((a.testBit 31 != b.testBit 31) && (a.testBit 31 != r.testBit 31)) := by
  have hmask : ∀ x : Nat, (x &&& kSignBit ≠ 0) ↔ (x.testBit 31 = true) := by
    intro x
    have h := and_two_pow_ne_zero x 31
    rwa [show (2 : Nat) ^ 31 = kSignBit from rfl] at h
  unfold set_sub_cv
  dsimp only
  split_ifs with hov hle hle <;>
    · rw [hmask] at hov
      simp only [Nat.testBit_and, Nat.testBit_xor] at hov
      simp only [Nat.testBit_lor, Nat.testBit_and,
        testBit_compl32 _ 28 (by omega), testBit_kFlagC, testBit_kFlagV]
      cases ha : a.testBit 31 <;> cases hb : b.testBit 31 <;>
        cases hr : r.testBit 31 <;> simp_all

/-! ## Arithmetic bridge lemmas for the rotation round-trip -/

theorem and_mask32_eq_mod (x : Nat) : x &&& mask32 = x % 2 ^ 32 := by
  show x &&& (2 ^ 32 - 1) = x % 2 ^ 32
  exact Nat.and_pow_two_sub_one_eq_mod x 32

theorem and_three_eq_mod (x : Nat) : x &&& 3 = x % 4 := by
  rw [show (3 : Nat) = 2 ^ 2 - 1 from rfl, Nat.and_pow_two_sub_one_eq_mod]

theorem and_thirtyone_eq_mod (x : Nat) : x &&& 31 = x % 32 := by
  rw [show (31 : Nat) = 2 ^ 5 - 1 from rfl, Nat.and_pow_two_sub_one_eq_mod]

theorem and_kWordMask_eq (x : Nat) (hx : x < 2 ^ 32) :
    x &&& kWordMask = 2 ^ 2 * (x / 4) := by
  apply Nat.eq_of_testBit_eq
  intro j
  rw [Nat.testBit_and, Nat.testBit_mul_pow_two]
  by_cases hj32 : j < 32
  · by_cases hj2 : j < 2
    · have hm : kWordMask.testBit j = false := by
        interval_cases j <;> decide
      simp [hm, hj2]
    · have hm : kWordMask.testBit j = true := by
        rw [show kWordMask = compl32 3 from rfl, testBit_compl32 _ _ hj32]
        have h3 : Nat.testBit 3 j = false := by
          apply Nat.testBit_lt_two_pow
          calc (3 : Nat) < 2 ^ 2 := by norm_num
            _ ≤ 2 ^ j := Nat.pow_le_pow_right (by norm_num) (by omega)
        simp [h3]
      have hsr : x / 4 = x >>> 2 := by
        rw [Nat.shiftRight_eq_div_pow]
      rw [hm, hsr, Nat.testBit_shiftRight]
      simp [show 2 ≤ j by omega, show 2 + (j - 2) = j by omega]
  · have h1 : x.testBit j = false := by
      apply Nat.testBit_lt_two_pow
      exact lt_of_lt_of_le hx (Nat.pow_le_pow_right (by norm_num) (by omega))
    have h2 : (x / 4).testBit (j - 2) = false := by
      apply Nat.testBit_lt_two_pow
      have : x / 4 < 2 ^ 30 := by omega
      exact lt_of_lt_of_le this (Nat.pow_le_pow_right (by norm_num) (by omega))
    simp [h1, h2]

theorem mread8_mwrite8_same (m : Mem) (a v : Nat) (ha : a < 2 ^ 32) :
    mread8 (mwrite8 m a v) a = v % 256 := by
  unfold mread8 mwrite8
  rw [Nat.mod_eq_of_lt ha]
  simp [Nat.mod_mod_of_dvd]

theorem mread8_mwrite8_ne (m : Mem) (a b v : Nat) (ha : a < 2 ^ 32)
    (hb : b < 2 ^ 32) (hne : a ≠ b) :
    mread8 (mwrite8 m b v) a = mread8 m a := by
  unfold mread8 mwrite8
  rw [Nat.mod_eq_of_lt ha, Nat.mod_eq_of_lt hb]
  simp [hne]

theorem mread32_mwrite32 (m : Mem) (a v : Nat) (ha : a + 3 < 2 ^ 32)
    (hv : v < 2 ^ 32) : mread32 (mwrite32 m a v) a = v := by
  have hb0 : v &&& 0xFF = v % 2 ^ 8 := by
    rw [show (0xFF : Nat) = 2 ^ 8 - 1 from rfl, Nat.and_pow_two_sub_one_eq_mod]
  have hb1 : (v >>> 8) &&& 0xFF = v / 2 ^ 8 % 2 ^ 8 := by
    rw [show (0xFF : Nat) = 2 ^ 8 - 1 from rfl, Nat.and_pow_two_sub_one_eq_mod,
      Nat.shiftRight_eq_div_pow]
  have hb2 : (v >>> 16) &&& 0xFF = v / 2 ^ 16 % 2 ^ 8 := by
    rw [show (0xFF : Nat) = 2 ^ 8 - 1 from rfl, Nat.and_pow_two_sub_one_eq_mod,
      Nat.shiftRight_eq_div_pow]
  have hb3 : (v >>> 24) &&& 0xFF = v / 2 ^ 24 % 2 ^ 8 := by
    rw [show (0xFF : Nat) = 2 ^ 8 - 1 from rfl, Nat.and_pow_two_sub_one_eq_mod,
      Nat.shiftRight_eq_div_pow]
  unfold mwrite32 mread32
  rw [hb0, hb1, hb2, hb3]
  have e0 : mread8 (mwrite8 (mwrite8 (mwrite8 (mwrite8 m a (v % 2 ^ 8))
      (a + 1) (v / 2 ^ 8 % 2 ^ 8)) (a + 2) (v / 2 ^ 16 % 2 ^ 8))
      (a + 3) (v / 2 ^ 24 % 2 ^ 8)) a = v % 2 ^ 8 := by
    rw [mread8_mwrite8_ne _ _ _ _ (by omega) (by omega) (by omega),
      mread8_mwrite8_ne _ _ _ _ (by omega) (by omega) (by omega),
      mread8_mwrite8_ne _ _ _ _ (by omega) (by omega) (by omega),
      mread8_mwrite8_same _ _ _ (by omega)]
    omega
  have e1 : mread8 (mwrite8 (mwrite8 (mwrite8 (mwrite8 m a (v % 2 ^ 8))
      (a + 1) (v / 2 ^ 8 % 2 ^ 8)) (a + 2) (v / 2 ^ 16 % 2 ^ 8))
      (a + 3) (v / 2 ^ 24 % 2 ^ 8)) (a + 1) = v / 2 ^ 8 % 2 ^ 8 := by
    rw [mread8_mwrite8_ne _ _ _ _ (by omega) (by omega) (by omega),
      mread8_mwrite8_ne _ _ _ _ (by omega) (by omega) (by omega),
      mread8_mwrite8_same _ _ _ (by omega)]
    omega
  have e2 : mread8 (mwrite8 (mwrite8 (mwrite8 (mwrite8 m a (v % 2 ^ 8))
      (a + 1) (v / 2 ^ 8 % 2 ^ 8)) (a + 2) (v / 2 ^ 16 % 2 ^ 8))
      (a + 3) (v / 2 ^ 24 % 2 ^ 8)) (a + 2) = v / 2 ^ 16 % 2 ^ 8 := by
    rw [mread8_mwrite8_ne _ _ _ _ (by omega) (by omega) (by omega),
      mread8_mwrite8_same _ _ _ (by omega)]
    omega
  have e3 : mread8 (mwrite8 (mwrite8 (mwrite8 (mwrite8 m a (v % 2 ^ 8))
      (a + 1) (v / 2 ^ 8 % 2 ^ 8)) (a + 2) (v / 2 ^ 16 % 2 ^ 8))
      (a + 3) (v / 2 ^ 24 % 2 ^ 8)) (a + 3) = v / 2 ^ 24 % 2 ^ 8 := by
    rw [mread8_mwrite8_same _ _ _ (by omega)]
    omega
  rw [e0, e1, e2, e3]
  have h01 : v % 2 ^ 8 ||| (v / 2 ^ 8 % 2 ^ 8) <<< 8 =
      2 ^ 8 * (v / 2 ^ 8 % 2 ^ 8) + v % 2 ^ 8 := by
    rw [Nat.shiftLeft_eq, Nat.lor_comm, Nat.mul_comm]
    exact (Nat.mul_add_lt_is_or (by omega) _).symm
  have h02 : 2 ^ 8 * (v / 2 ^ 8 % 2 ^ 8) + v % 2 ^ 8 ||| (v / 2 ^ 16 % 2 ^ 8) <<< 16 =
      2 ^ 16 * (v / 2 ^ 16 % 2 ^ 8) + (2 ^ 8 * (v / 2 ^ 8 % 2 ^ 8) + v % 2 ^ 8) := by
    rw [Nat.shiftLeft_eq, Nat.lor_comm, Nat.mul_comm]
    exact (Nat.mul_add_lt_is_or (by omega) _).symm
  have h03 : 2 ^ 16 * (v / 2 ^ 16 % 2 ^ 8) + (2 ^ 8 * (v / 2 ^ 8 % 2 ^ 8) + v % 2 ^ 8) |||
      (v / 2 ^ 24 % 2 ^ 8) <<< 24 =
      2 ^ 24 * (v / 2 ^ 24 % 2 ^ 8) +
        (2 ^ 16 * (v / 2 ^ 16 % 2 ^ 8) + (2 ^ 8 * (v / 2 ^ 8 % 2 ^ 8) + v % 2 ^ 8)) := by
    rw [Nat.shiftLeft_eq, Nat.lor_comm, Nat.mul_comm]
    exact (Nat.mul_add_lt_is_or (by omega) _).symm
  rw [h01, h02, h03]
  omega

theorem rotr_zero_of_lt (v : Nat) (hv : v < 2 ^ 32) : rotr v 0 = v := by
  unfold rotr shl32
  dsimp only
  rw [show (0 : Nat) &&& 31 = 0 from rfl,
    show ((32 : Nat) - 0) &&& 31 = 0 from rfl, Nat.shiftRight_zero,
    Nat.shiftLeft_zero, and_mask32_eq_mod, Nat.mod_eq_of_lt hv, Nat.or_self]

theorem rotr_eq_arith (v n : Nat) (hv : v < 2 ^ 32) (h0 : 0 < n) (h32 : n < 32) :
    rotr v n = 2 ^ (32 - n) * (v % 2 ^ n) + v / 2 ^ n := by
  unfold rotr shl32
  dsimp only
  rw [and_thirtyone_eq_mod, Nat.mod_eq_of_lt h32, and_thirtyone_eq_mod,
    Nat.mod_eq_of_lt (by omega : 32 - n < 32), Nat.shiftLeft_eq,
    Nat.shiftRight_eq_div_pow, and_mask32_eq_mod]
  have hmul : v * 2 ^ (32 - n) % 2 ^ 32 = 2 ^ (32 - n) * (v % 2 ^ n) := by
    have h2 : (2 : Nat) ^ 32 = 2 ^ (32 - n) * 2 ^ n := by
      rw [← pow_add]
      congr 1
      omega
    rw [h2, Nat.mul_comm v, Nat.mul_mod_mul_left]
  rw [hmul, Nat.lor_comm]
  refine (Nat.mul_add_lt_is_or ?_ _).symm
  rw [Nat.div_lt_iff_lt_mul (Nat.pos_pow_of_pos n (by norm_num)), ← pow_add]
  calc v < 2 ^ 32 := hv
    _ ≤ 2 ^ (32 - n + n) := by
        apply Nat.pow_le_pow_right (by norm_num)
        omega

/-! ## Register file and mask helper lemmas -/

theorem getR_setR_same (s : ARM7TDMI) (i v : Nat) : getR (setR s i v) i = v := by
  simp [getR, setR]

theorem and_masks_commute {x a b va vb : Nat} (ha : x &&& a = va)
    (hb : x &&& b = vb) : va &&& b = vb &&& a := by
  rw [← ha, ← hb, Nat.and_assoc, Nat.and_assoc, Nat.and_comm a b]

theorem shl32_two_of_small {k : Nat} (hk : k < 256) : shl32 k 2 = 4 * k := by
  unfold shl32
  rw [Nat.shiftLeft_eq, and_mask32_eq_mod, Nat.mod_eq_of_lt (by omega)]
  omega

theorem set_nz_and_kFlagT (c r : Nat) : set_nz c r &&& kFlagT = c &&& kFlagT :=
  and_two_pow_congr 5 (set_nz_testBit_low c r 5 (by omega) (by omega) (by omega))

theorem set_add_cv_and_kFlagT (c x y z : Nat) :
    set_add_cv c x y z &&& kFlagT = c &&& kFlagT :=
  and_two_pow_congr 5 (set_add_cv_testBit_low c x y z 5 (by omega) (by omega) (by omega))

theorem set_sub_cv_and_kFlagT (c x y z : Nat) :
    set_sub_cv c x y z &&& kFlagT = c &&& kFlagT :=
  and_two_pow_congr 5 (set_sub_cv_testBit_low c x y z 5 (by omega) (by omega) (by omega))

theorem set_nz_and_kFlagC (c r : Nat) : set_nz c r &&& kFlagC = c &&& kFlagC :=
  and_two_pow_congr 29 (set_nz_testBit_low c r 29 (by omega) (by omega) (by omega))

theorem set_nz_and_kFlagV (c r : Nat) : set_nz c r &&& kFlagV = c &&& kFlagV :=
  and_two_pow_congr 28 (set_nz_testBit_low c r 28 (by omega) (by omega) (by omega))

/-! ## Claim theorems -/

/-- C3: for all 32-bit values a and b, after any subtraction-family
flag-setting operation (subtract immediate-8, subtract register, subtract
immediate-3, or high-register compare) with minuend a and subtrahend b
producing result r = (a - b) mod 2^32, the carry flag is set iff a ≥ b as
unsigned values, and the overflow flag is set iff the sign bits of a and b
differ and the sign bit of r differs from the sign bit of a. -/
theorem c3_sub_flag_contract (s : ARM7TDMI) (m : Mem) (insn : Nat) :
    (((exec_sub_imm s m insn).1.cpsr &&& kFlagC ≠ 0) ↔
        insn &&& 0xFF ≤ getR s ((insn >>> 8) &&& 7)) ∧
    (((exec_sub_imm s m insn).1.cpsr &&& kFlagV ≠ 0) ↔
        (Nat.testBit (getR s ((insn >>> 8) &&& 7)) 31 ≠
            Nat.testBit (insn &&& 0xFF) 31 ∧
          Nat.testBit (sub32 (getR s ((insn >>> 8) &&& 7)) (insn &&& 0xFF)) 31 ≠
            Nat.testBit (getR s ((insn >>> 8) &&& 7)) 31)) ∧
    (((exec_sub_reg s m insn).1.cpsr &&& kFlagC ≠ 0) ↔
        getR s ((insn >>> 6) &&& 7) ≤ getR s ((insn >>> 3) &&& 7)) ∧
    (((exec_sub_reg s m insn).1.cpsr &&& kFlagV ≠ 0) ↔
        (Nat.testBit (getR s ((insn >>> 3) &&& 7)) 31 ≠
            Nat.testBit (getR s ((insn >>> 6) &&& 7)) 31 ∧
          Nat.testBit (sub32 (getR s ((insn >>> 3) &&& 7))
              (getR s ((insn >>> 6) &&& 7))) 31 ≠
            Nat.testBit (getR s ((insn >>> 3) &&& 7)) 31)) ∧
    (((exec_sub_imm3 s m insn).1.cpsr &&& kFlagC ≠ 0) ↔
        (insn >>> 6) &&& 7 ≤ getR s ((insn >>> 3) &&& 7)) ∧
    (((exec_sub_imm3 s m insn).1.cpsr &&& kFlagV ≠ 0) ↔
        (Nat.testBit (getR s ((insn >>> 3) &&& 7)) 31 ≠
            Nat.testBit ((insn >>> 6) &&& 7) 31 ∧
          Nat.testBit (sub32 (getR s ((insn >>> 3) &&& 7)) ((insn >>> 6) &&& 7)) 31 ≠
            Nat.testBit (getR s ((insn >>> 3) &&& 7)) 31)) ∧
    (((exec_cmp_high s m insn).1.cpsr &&& kFlagC ≠ 0) ↔
        getR s (((insn >>> 3) &&& 7) ||| (((insn >>> 6) &&& 1) <<< 3)) ≤
          getR s ((insn &&& 7) ||| (((insn >>> 7) &&& 1) <<< 3))) ∧
    (((exec_cmp_high s m insn).1.cpsr &&& kFlagV ≠ 0) ↔
        (Nat.testBit (getR s ((insn &&& 7) ||| (((insn >>> 7) &&& 1) <<< 3))) 31 ≠
            Nat.testBit (getR s (((insn >>> 3) &&& 7) ||| (((insn >>> 6) &&& 1) <<< 3))) 31 ∧
          Nat.testBit (sub32 (getR s ((insn &&& 7) ||| (((insn >>> 7) &&& 1) <<< 3)))
              (getR s (((insn >>> 3) &&& 7) ||| (((insn >>> 6) &&& 1) <<< 3)))) 31 ≠
            Nat.testBit (getR s ((insn &&& 7) ||| (((insn >>> 7) &&& 1) <<< 3))) 31)) := by
  have hC : ∀ c a b : Nat, (set_sub_cv c a b (sub32 a b) &&& kFlagC ≠ 0) ↔ b ≤ a := by
    intro c a b
    rw [show kFlagC = 2 ^ 29 from rfl, and_two_pow_ne_zero, set_sub_cv_testBit_C]
    simp
  have hV : ∀ c a b : Nat, (set_sub_cv c a b (sub32 a b) &&& kFlagV ≠ 0) ↔
      (Nat.testBit a 31 ≠ Nat.testBit b 31 ∧
        Nat.testBit (sub32 a b) 31 ≠ Nat.testBit a 31) := by
    intro c a b
    rw [show kFlagV = 2 ^ 28 from rfl, and_two_pow_ne_zero, set_sub_cv_testBit_V]
    rcases ha : a.testBit 31 <;> rcases hb : b.testBit 31 <;>
      rcases hr : (sub32 a b).testBit 31 <;> simp [ha, hb, hr]
  exact ⟨hC _ _ _, hV _ _ _, hC _ _ _, hV _ _ _, hC _ _ _, hV _ _ _, hC _ _ _, hV _ _ _⟩

/-- C4 (amended): executing any of the three load instructions
(PC-relative literal load, word load register+immediate, byte load
register+immediate) leaves the carry and overflow flags unchanged; the
negative and zero flags are recomputed from the loaded value, so they are
not preserved in general. -/
theorem c4_loads_preserve_carry_overflow (s : ARM7TDMI) (m : Mem) (insn : Nat) :
    ((exec_ldr_literal s m insn).1.cpsr &&& kFlagC = s.cpsr &&& kFlagC ∧
      (exec_ldr_literal s m insn).1.cpsr &&& kFlagV = s.cpsr &&& kFlagV) ∧
    ((exec_ldr_imm_w s m insn).1.cpsr &&& kFlagC = s.cpsr &&& kFlagC ∧
      (exec_ldr_imm_w s m insn).1.cpsr &&& kFlagV = s.cpsr &&& kFlagV) ∧
    ((exec_ldr_imm_b s m insn).1.cpsr &&& kFlagC = s.cpsr &&& kFlagC ∧
      (exec_ldr_imm_b s m insn).1.cpsr &&& kFlagV = s.cpsr &&& kFlagV) :=
  ⟨⟨set_nz_and_kFlagC _ _, set_nz_and_kFlagV _ _⟩,
   ⟨set_nz_and_kFlagC _ _, set_nz_and_kFlagV _ _⟩,
   ⟨set_nz_and_kFlagC _ _, set_nz_and_kFlagV _ _⟩⟩

theorem getR_withCpsr (s : ARM7TDMI) (c : Nat) (j : Nat) :
    getR { s with cpsr := c } j = getR s j := rfl

/-- C6: for every machine state with program counter p at fetch and every
PC-relative literal-load word, one step() loads the destination register
(bits 10-8) from ((p + 2) + 2 aligned down to a 4-byte boundary) plus four
times the 8-bit word offset, through the rotation load path. -/
theorem c6_ldr_literal_address (s : ARM7TDMI) (m : Mem)
    (h5 : mread16 m (getR s 15) &&& 0xF800 = 0x4800) :
    getR (step s m).1 ((mread16 m (getR s 15) >>> 8) &&& 7) =
      read_u32_unaligned m
        (add32 ((add32 (add32 (getR s 15) 2) 2) &&& kWordMask)
          (4 * (mread16 m (getR s 15) &&& 0xFF))) := by
  have hn1 : ¬(mread16 m (getR s 15) &&& 0xFF00 = 0x4400) := fun hA =>
    absurd (and_masks_commute hA h5) (by decide)
  have hn2 : ¬(mread16 m (getR s 15) &&& 0xFF00 = 0x4500) := fun hA =>
    absurd (and_masks_commute hA h5) (by decide)
  have hn3 : ¬(mread16 m (getR s 15) &&& 0xFF00 = 0x4600) := fun hA =>
    absurd (and_masks_commute hA h5) (by decide)
  have hn4 : ¬(mread16 m (getR s 15) &&& 0xFF00 = 0x4700) := fun hA =>
    absurd (and_masks_commute hA h5) (by decide)
  have hn5 : ¬(mread16 m (getR s 15) &&& 0xF600 = 0xB400) := fun hA =>
    absurd (and_masks_commute hA h5) (by decide)
  have hn6 : ¬(mread16 m (getR s 15) &&& 0xF600 = 0xB600) := fun hA =>
    absurd (and_masks_commute hA h5) (by decide)
  have hn7 : ¬(mread16 m (getR s 15) &&& 0xFE00 = 0x1800) := fun hA =>
    absurd (and_masks_commute hA h5) (by decide)
  have hn8 : ¬(mread16 m (getR s 15) &&& 0xFE00 = 0x1A00) := fun hA =>
    absurd (and_masks_commute hA h5) (by decide)
  have hn9 : ¬(mread16 m (getR s 15) &&& 0xFE00 = 0x1C00) := fun hA =>
    absurd (and_masks_commute hA h5) (by decide)
  have hn10 : ¬(mread16 m (getR s 15) &&& 0xFE00 = 0x1E00) := fun hA =>
    absurd (and_masks_commute hA h5) (by decide)
  have hn11 : ¬(mread16 m (getR s 15) &&& 0xF800 = 0x2000) := fun hA =>
    absurd (and_masks_commute hA h5) (by decide)
  have hn12 : ¬(mread16 m (getR s 15) &&& 0xF800 = 0x3000) := fun hA =>
    absurd (and_masks_commute hA h5) (by decide)
  have hn13 : ¬(mread16 m (getR s 15) &&& 0xF800 = 0x3800) := fun hA =>
    absurd (and_masks_commute hA h5) (by decide)
  have hsm : mread16 m (getR s 15) &&& 0xFF < 256 :=
    lt_of_le_of_lt Nat.and_le_right (by norm_num)
  unfold step
  dsimp only
  rw [if_neg hn1, if_neg hn2, if_neg hn3, if_neg hn4, if_neg hn5, if_neg hn6,
    if_neg hn7, if_neg hn8, if_neg hn9, if_neg hn10, if_neg hn11, if_neg hn12,
    if_neg hn13, if_pos h5]
  unfold exec_ldr_literal
  dsimp only
  simp only [getR_withCpsr, getR_setR_same, shl32_two_of_small hsm]

/-- C6 witness: the literal load LDR r0, [pc, 4] at PC 0x100 loads r0 from
the pool word at 0x108. -/
theorem c6_ldr_literal_address_witness :
    getR (step s6w m6w).1 ((mread16 m6w (getR s6w 15) >>> 8) &&& 7) =
      read_u32_unaligned m6w
        (add32 ((add32 (add32 (getR s6w 15) 2) 2) &&& kWordMask)
          (4 * (mread16 m6w (getR s6w 15) &&& 0xFF))) :=
  c6_ldr_literal_address s6w m6w (by decide)

theorem set_nz_lt (c r : Nat) : set_nz c r < 2 ^ 32 := by
  unfold set_nz
  dsimp only
  split_ifs <;>
    first
      | exact Nat.and_lt_two_pow c (by decide)
      | exact Nat.or_lt_two_pow (Nat.and_lt_two_pow c (by decide)) (by decide)
      | exact Nat.or_lt_two_pow
          (Nat.or_lt_two_pow (Nat.and_lt_two_pow c (by decide)) (by decide)) (by decide)

theorem set_add_cv_lt (c x y z : Nat) (hc : c < 2 ^ 32) :
    set_add_cv c x y z < 2 ^ 32 := by
  unfold set_add_cv
  dsimp only
  split_ifs <;>
    first
      | exact Nat.or_lt_two_pow (Nat.or_lt_two_pow hc (by decide)) (by decide)
      | exact Nat.or_lt_two_pow (Nat.and_lt_two_pow c (by decide)) (by decide)
      | exact Nat.and_lt_two_pow _ (by decide)

theorem set_sub_cv_lt (c x y z : Nat) (hc : c < 2 ^ 32) :
    set_sub_cv c x y z < 2 ^ 32 := by
  unfold set_sub_cv
  dsimp only
  split_ifs <;>
    first
      | exact Nat.or_lt_two_pow (Nat.or_lt_two_pow hc (by decide)) (by decide)
      | exact Nat.or_lt_two_pow (Nat.and_lt_two_pow c (by decide)) (by decide)
      | exact Nat.and_lt_two_pow _ (by decide)

theorem ldmLoop_cpsr (m : Mem) (rlist : Nat) :
    ∀ (l : List Nat) (p : Nat × ARM7TDMI), (ldmLoop m rlist l p).2.cpsr = p.2.cpsr := by
  intro l
  induction l with
  | nil => intro p; rfl
  | cons i rest ih =>
      intro p
      unfold ldmLoop
      split
      · rw [ih]
        rfl
      · exact ih p

theorem exec_pop_T_noPC (s : ARM7TDMI) (m : Mem) (insn : Nat)
    (h : (insn >>> 8) &&& 1 = 0) :
    (exec_pop s m insn).1.cpsr &&& kFlagT = s.cpsr &&& kFlagT := by
  unfold exec_pop
  dsimp only
  rw [h, if_neg (by decide : ¬(((0 : Nat) != 0) = true))]
  have hl := ldmLoop_cpsr m (insn &&& 0xFF) thumbRegRange (getR s 13, s)
  simp only [setR]
  rw [hl]

theorem exec_bcond_T (s : ARM7TDMI) (m : Mem) (insn : Nat) :
    (exec_bcond s m insn).1.cpsr &&& kFlagT = s.cpsr &&& kFlagT := by
  unfold exec_bcond
  dsimp only
  split <;> rfl

theorem exec_cmp_high_T (s : ARM7TDMI) (m : Mem) (insn : Nat) :
    (exec_cmp_high s m insn).1.cpsr &&& kFlagT = s.cpsr &&& kFlagT :=
  (set_sub_cv_and_kFlagT _ _ _ _).trans (set_nz_and_kFlagT _ _)

theorem exec_add_reg_T (s : ARM7TDMI) (m : Mem) (insn : Nat) :
    (exec_add_reg s m insn).1.cpsr &&& kFlagT = s.cpsr &&& kFlagT :=
  (set_add_cv_and_kFlagT _ _ _ _).trans (set_nz_and_kFlagT _ _)

theorem exec_sub_reg_T (s : ARM7TDMI) (m : Mem) (insn : Nat) :
    (exec_sub_reg s m insn).1.cpsr &&& kFlagT = s.cpsr &&& kFlagT :=
  (set_sub_cv_and_kFlagT _ _ _ _).trans (set_nz_and_kFlagT _ _)

theorem exec_add_imm3_T (s : ARM7TDMI) (m : Mem) (insn : Nat) :
    (exec_add_imm3 s m insn).1.cpsr &&& kFlagT = s.cpsr &&& kFlagT :=
  (set_add_cv_and_kFlagT _ _ _ _).trans (set_nz_and_kFlagT _ _)

theorem exec_sub_imm3_T (s : ARM7TDMI) (m : Mem) (insn : Nat) :
    (exec_sub_imm3 s m insn).1.cpsr &&& kFlagT = s.cpsr &&& kFlagT :=
  (set_sub_cv_and_kFlagT _ _ _ _).trans (set_nz_and_kFlagT _ _)

theorem exec_mov_imm_T (s : ARM7TDMI) (m : Mem) (insn : Nat) :
    (exec_mov_imm s m insn).1.cpsr &&& kFlagT = s.cpsr &&& kFlagT :=
  set_nz_and_kFlagT _ _

theorem exec_add_imm_T (s : ARM7TDMI) (m : Mem) (insn : Nat) :
    (exec_add_imm s m insn).1.cpsr &&& kFlagT = s.cpsr &&& kFlagT :=
  (set_add_cv_and_kFlagT _ _ _ _).trans (set_nz_and_kFlagT _ _)

theorem exec_sub_imm_T (s : ARM7TDMI) (m : Mem) (insn : Nat) :
    (exec_sub_imm s m insn).1.cpsr &&& kFlagT = s.cpsr &&& kFlagT :=
  (set_sub_cv_and_kFlagT _ _ _ _).trans (set_nz_and_kFlagT _ _)

theorem exec_ldr_literal_T (s : ARM7TDMI) (m : Mem) (insn : Nat) :
    (exec_ldr_literal s m insn).1.cpsr &&& kFlagT = s.cpsr &&& kFlagT :=
  set_nz_and_kFlagT _ _

theorem exec_ldr_imm_w_T (s : ARM7TDMI) (m : Mem) (insn : Nat) :
    (exec_ldr_imm_w s m insn).1.cpsr &&& kFlagT = s.cpsr &&& kFlagT :=
  set_nz_and_kFlagT _ _

theorem exec_ldr_imm_b_T (s : ARM7TDMI) (m : Mem) (insn : Nat) :
    (exec_ldr_imm_b s m insn).1.cpsr &&& kFlagT = s.cpsr &&& kFlagT :=
  set_nz_and_kFlagT _ _

set_option maxHeartbeats 1000000 in
/-- C10: for every machine state and every instruction word whose dispatch
reaches neither the mode-exchange routine nor the pop routine with the
return-address bit set, one step() leaves the T bit of the status register
unchanged; and the flag helpers modify only the negative, zero, carry and
overflow bits. -/
theorem c10_T_bit_preserved (s : ARM7TDMI) (m : Mem)
    (hbx : mread16 m (getR s 15) &&& 0xFF00 ≠ 0x4700)
    (hpop : mread16 m (getR s 15) &&& 0xF600 = 0xB600 →
      (mread16 m (getR s 15) >>> 8) &&& 1 = 0) :
    (step s m).1.cpsr &&& kFlagT = s.cpsr &&& kFlagT ∧
    (∀ c x y z i : Nat, c < 2 ^ 32 → i ≠ 31 → i ≠ 30 → i ≠ 29 → i ≠ 28 →
      ((set_nz c x).testBit i = c.testBit i ∧
       (set_add_cv c x y z).testBit i = c.testBit i ∧
       (set_sub_cv c x y z).testBit i = c.testBit i)) := by
  constructor
  · unfold step
    dsimp only
    by_cases h1 : mread16 m (getR s 15) &&& 0xFF00 = 0x4400
    · rw [if_pos h1]; rfl
    rw [if_neg h1]
    by_cases h2 : mread16 m (getR s 15) &&& 0xFF00 = 0x4500
    · rw [if_pos h2]; exact exec_cmp_high_T _ _ _
    rw [if_neg h2]
    by_cases h3 : mread16 m (getR s 15) &&& 0xFF00 = 0x4600
    · rw [if_pos h3]; rfl
    rw [if_neg h3]
    by_cases h4 : mread16 m (getR s 15) &&& 0xFF00 = 0x4700
    · exact absurd h4 hbx
    rw [if_neg h4]
    by_cases h5 : mread16 m (getR s 15) &&& 0xF600 = 0xB400
    · rw [if_pos h5]; rfl
    rw [if_neg h5]
    by_cases h6 : mread16 m (getR s 15) &&& 0xF600 = 0xB600
    · rw [if_pos h6]; exact exec_pop_T_noPC _ _ _ (hpop h6)
    rw [if_neg h6]
    by_cases h7 : mread16 m (getR s 15) &&& 0xFE00 = 0x1800
    · rw [if_pos h7]; exact exec_add_reg_T _ _ _
    rw [if_neg h7]
    by_cases h8 : mread16 m (getR s 15) &&& 0xFE00 = 0x1A00
    · rw [if_pos h8]; exact exec_sub_reg_T _ _ _
    rw [if_neg h8]
    by_cases h9 : mread16 m (getR s 15) &&& 0xFE00 = 0x1C00
    · rw [if_pos h9]; exact exec_add_imm3_T _ _ _
    rw [if_neg h9]
    by_cases h10 : mread16 m (getR s 15) &&& 0xFE00 = 0x1E00
    · rw [if_pos h10]; exact exec_sub_imm3_T _ _ _
    rw [if_neg h10]
    by_cases h11 : mread16 m (getR s 15) &&& 0xF800 = 0x2000
    · rw [if_pos h11]; exact exec_mov_imm_T _ _ _
    rw [if_neg h11]
    by_cases h12 : mread16 m (getR s 15) &&& 0xF800 = 0x3000
    · rw [if_pos h12]; exact exec_add_imm_T _ _ _
    rw [if_neg h12]
    by_cases h13 : mread16 m (getR s 15) &&& 0xF800 = 0x3800
    · rw [if_pos h13]; exact exec_sub_imm_T _ _ _
    rw [if_neg h13]
    by_cases h14 : mread16 m (getR s 15) &&& 0xF800 = 0x4800
    · rw [if_pos h14]; exact exec_ldr_literal_T _ _ _
    rw [if_neg h14]
    by_cases h15 : mread16 m (getR s 15) &&& 0xF800 = 0x6000
    · rw [if_pos h15]; rfl
    rw [if_neg h15]
    by_cases h16 : mread16 m (getR s 15) &&& 0xF800 = 0x6800
    · rw [if_pos h16]; exact exec_ldr_imm_w_T _ _ _
    rw [if_neg h16]
    by_cases h17 : mread16 m (getR s 15) &&& 0xF800 = 0x7000
    · rw [if_pos h17]; rfl
    rw [if_neg h17]
    by_cases h18 : mread16 m (getR s 15) &&& 0xF800 = 0x7800
    · rw [if_pos h18]; exact exec_ldr_imm_b_T _ _ _
    rw [if_neg h18]
    by_cases h19 : mread16 m (getR s 15) &&& 0xF000 = 0xD000
    · rw [if_pos h19]; exact exec_bcond_T _ _ _
    rw [if_neg h19]
    by_cases h20 : mread16 m (getR s 15) &&& 0xF800 = 0xE000
    · rw [if_pos h20]; rfl
    rw [if_neg h20]
    rfl
  · intro c x y z i hc h31 h30 h29 h28
    by_cases hi : i < 32
    · exact ⟨set_nz_testBit_low c x i h30 h31 hi,
        set_add_cv_testBit_low c x y z i h28 h29 hi,
        set_sub_cv_testBit_low c x y z i h28 h29 hi⟩
    · have hle : (2 : Nat) ^ 32 ≤ 2 ^ i := Nat.pow_le_pow_right (by norm_num) (by omega)
      have hcF : c.testBit i = false := Nat.testBit_lt_two_pow (lt_of_lt_of_le hc hle)
      refine ⟨?_, ?_, ?_⟩
      · rw [hcF]
        exact Nat.testBit_lt_two_pow (lt_of_lt_of_le (set_nz_lt c x) hle)
      · rw [hcF]
        exact Nat.testBit_lt_two_pow (lt_of_lt_of_le (set_add_cv_lt c x y z hc) hle)
      · rw [hcF]
        exact Nat.testBit_lt_two_pow (lt_of_lt_of_le (set_sub_cv_lt c x y z hc) hle)

/-- C10 witness: from reset over zero memory the fetched word is 0, which
is neither the mode-exchange encoding nor a pop encoding, and the T bit is
preserved. -/
theorem c10_T_bit_preserved_witness :
    (step cpuReset (fun _ => 0)).1.cpsr &&& kFlagT = cpuReset.cpsr &&& kFlagT ∧
    (∀ c x y z i : Nat, c < 2 ^ 32 → i ≠ 31 → i ≠ 30 → i ≠ 29 → i ≠ 28 →
      ((set_nz c x).testBit i = c.testBit i ∧
       (set_add_cv c x y z).testBit i = c.testBit i ∧
       (set_sub_cv c x y z).testBit i = c.testBit i)) :=
  c10_T_bit_preserved cpuReset (fun _ => 0) (by decide) (by decide)

theorem mmuRead8_ws (mu : MMU) (addr : Nat) (ha1 : 0x08000000 ≤ addr)
    (ha2 : addr < 0x0E000000) (hne : mu.gamepak ≠ []) :
    mmuRead8 mu addr = mu.gamepak.getD (gamepak_index mu addr) 0 := by
  have n1 : ¬(BIOS_BASE ≤ addr ∧ addr < BIOS_BASE + BIOS_SIZE) := by
    unfold BIOS_BASE BIOS_SIZE
    omega
  have n2 : ¬(EWRAM_BASE ≤ addr ∧ addr < EWRAM_BASE + EWRAM_SIZE) := by
    unfold EWRAM_BASE EWRAM_SIZE
    omega
  have n3 : ¬(IWRAM_BASE ≤ addr ∧ addr < IWRAM_BASE + IWRAM_SIZE) := by
    unfold IWRAM_BASE IWRAM_SIZE
    omega
  have n4 : ¬(IO_BASE ≤ addr ∧ addr < IO_BASE + IO_SIZE) := by
    unfold IO_BASE IO_SIZE
    omega
  have n5 : ¬(PAL_BASE ≤ addr ∧ addr < PAL_BASE + kWindow16MiB) := by
    unfold PAL_BASE kWindow16MiB
    omega
  have n6 : ¬(VRAM_BASE ≤ addr ∧ addr < VRAM_BASE + kVRAMWindow128KiB) := by
    unfold VRAM_BASE kVRAMWindow128KiB
    omega
  have n7 : ¬(OAM_BASE ≤ addr ∧ addr < OAM_BASE + kWindow16MiB) := by
    unfold OAM_BASE kWindow16MiB
    omega
  have hws : in_any_ws addr := by
    unfold in_any_ws WS0_BASE WS1_BASE WS2_BASE WS_REGION_SIZE
    omega
  unfold mmuRead8
  rw [if_neg n1, if_neg n2, if_neg n3, if_neg n4, if_neg n5, if_neg n6,
    if_neg n7, if_pos hws, if_neg hne]

/-- C7: with a cartridge image of size at least one byte loaded, a byte
read at each of the three wait-state window bases plus any offset o below
32 MiB returns image[o mod size]. -/
theorem c7_gamepak_mirroring (mu : MMU) (bytes : List Nat) (o : Nat)
    (hb : bytes ≠ []) (ho : o < 0x02000000) :
    mmuRead8 (load_gamepak mu bytes) (WS0_BASE + o) =
      bytes.getD (o % bytes.length) 0 ∧
    mmuRead8 (load_gamepak mu bytes) (WS1_BASE + o) =
      bytes.getD (o % bytes.length) 0 ∧
    mmuRead8 (load_gamepak mu bytes) (WS2_BASE + o) =
      bytes.getD (o % bytes.length) 0 := by
  have hpak : (load_gamepak mu bytes).gamepak = bytes := rfl
  have hidx0 : gamepak_index (load_gamepak mu bytes) (WS0_BASE + o) =
      o % bytes.length := by
    unfold gamepak_index
    rw [hpak, if_neg hb]
    have hwb : ws_base_of (WS0_BASE + o) = WS0_BASE := by
      unfold ws_base_of WS0_BASE WS1_BASE WS2_BASE
      rw [if_neg (by omega), if_neg (by omega)]
    rw [hwb, show sub32 (WS0_BASE + o) WS0_BASE = o from by unfold sub32 WS0_BASE; omega]
  have hidx1 : gamepak_index (load_gamepak mu bytes) (WS1_BASE + o) =
      o % bytes.length := by
    unfold gamepak_index
    rw [hpak, if_neg hb]
    have hwb : ws_base_of (WS1_BASE + o) = WS1_BASE := by
      unfold ws_base_of WS0_BASE WS1_BASE WS2_BASE
      rw [if_neg (by omega), if_pos (by omega)]
    rw [hwb, show sub32 (WS1_BASE + o) WS1_BASE = o from by unfold sub32 WS1_BASE; omega]
  have hidx2 : gamepak_index (load_gamepak mu bytes) (WS2_BASE + o) =
      o % bytes.length := by
    unfold gamepak_index
    rw [hpak, if_neg hb]
    have hwb : ws_base_of (WS2_BASE + o) = WS2_BASE := by
      unfold ws_base_of WS2_BASE
      rw [if_pos (by omega)]
    rw [hwb, show sub32 (WS2_BASE + o) WS2_BASE = o from by unfold sub32 WS2_BASE; omega]
  have hne : (load_gamepak mu bytes).gamepak ≠ [] := by rw [hpak]; exact hb
  refine ⟨?_, ?_, ?_⟩
  · rw [mmuRead8_ws _ _ (by unfold WS0_BASE; omega) (by unfold WS0_BASE; omega) hne,
      hidx0, hpak]
  · rw [mmuRead8_ws _ _ (by unfold WS1_BASE; omega) (by unfold WS1_BASE; omega) hne,
      hidx1, hpak]
  · rw [mmuRead8_ws _ _ (by unfold WS2_BASE; omega) (by unfold WS2_BASE; omega) hne,
      hidx2, hpak]

/-- C7 witness: a four-byte image read at offset 4 in each window returns
the first image byte. -/
theorem c7_gamepak_mirroring_witness :
    mmuRead8 (load_gamepak mmuInit [0xAA, 0x01, 0x02, 0x03]) (WS0_BASE + 4) =
      [0xAA, 0x01, 0x02, 0x03].getD (4 % [0xAA, 0x01, 0x02, 0x03].length) 0 ∧
    mmuRead8 (load_gamepak mmuInit [0xAA, 0x01, 0x02, 0x03]) (WS1_BASE + 4) =
      [0xAA, 0x01, 0x02, 0x03].getD (4 % [0xAA, 0x01, 0x02, 0x03].length) 0 ∧
    mmuRead8 (load_gamepak mmuInit [0xAA, 0x01, 0x02, 0x03]) (WS2_BASE + 4) =
      [0xAA, 0x01, 0x02, 0x03].getD (4 % [0xAA, 0x01, 0x02, 0x03].length) 0 :=
  c7_gamepak_mirroring mmuInit [0xAA, 0x01, 0x02, 0x03] 4 (by decide) (by decide)

theorem mmuReset_read8_low (mu : MMU) (addr : Nat) (ha : addr < 0x02000000) :
    mmuRead8 (mmuReset mu) addr = kOpenBus := by
  unfold mmuRead8
  by_cases hb : BIOS_BASE ≤ addr ∧ addr < BIOS_BASE + BIOS_SIZE
  · rw [if_pos hb]
    simp [mmuReset]
  rw [if_neg hb]
  have n2 : ¬(EWRAM_BASE ≤ addr ∧ addr < EWRAM_BASE + EWRAM_SIZE) := by
    unfold EWRAM_BASE EWRAM_SIZE
    omega
  have n3 : ¬(IWRAM_BASE ≤ addr ∧ addr < IWRAM_BASE + IWRAM_SIZE) := by
    unfold IWRAM_BASE IWRAM_SIZE
    omega
  have n4 : ¬(IO_BASE ≤ addr ∧ addr < IO_BASE + IO_SIZE) := by
    unfold IO_BASE IO_SIZE
    omega
  have n5 : ¬(PAL_BASE ≤ addr ∧ addr < PAL_BASE + kWindow16MiB) := by
    unfold PAL_BASE kWindow16MiB
    omega
  have n6 : ¬(VRAM_BASE ≤ addr ∧ addr < VRAM_BASE + kVRAMWindow128KiB) := by
    unfold VRAM_BASE kVRAMWindow128KiB
    omega
  have n7 : ¬(OAM_BASE ≤ addr ∧ addr < OAM_BASE + kWindow16MiB) := by
    unfold OAM_BASE kWindow16MiB
    omega
  have nws : ¬in_any_ws addr := by
    unfold in_any_ws WS0_BASE WS1_BASE WS2_BASE WS_REGION_SIZE
    omega
  rw [if_neg n2, if_neg n3, if_neg n4, if_neg n5, if_neg n6, if_neg n7, if_neg nws]

/-- C8: in a freshly reset memory subsystem with no firmware loaded, every
read inside the 16 KiB firmware region returns the open-bus sentinel: 0xFF
for byte reads, 0xFFFF for halfword reads, 0xFFFFFFFF for word reads. -/
theorem c8_firmware_openbus (mu : MMU) (a : Nat)
    (ha : BIOS_BASE ≤ a ∧ a < BIOS_BASE + BIOS_SIZE) :
    mmuRead8 (mmuReset mu) a = 0xFF ∧
    mmuRead16 (mmuReset mu) a = 0xFFFF ∧
    mmuRead32 (mmuReset mu) a = 0xFFFFFFFF := by
  have hlt : a < 0x4000 := by
    have := ha.2
    unfold BIOS_BASE BIOS_SIZE at this
    omega
  have r : ∀ k, k ≤ 3 → mmuRead8 (mmuReset mu) (add32 a k) = 0xFF := by
    intro k hk
    rw [show add32 a k = a + k from by unfold add32; omega]
    exact mmuReset_read8_low mu (a + k) (by omega)
  refine ⟨mmuReset_read8_low mu a (by omega), ?_, ?_⟩
  · unfold mmuRead16
    rw [mmuReset_read8_low mu a (by omega), r 1 (by omega)]
    decide
  · unfold mmuRead32
    rw [mmuReset_read8_low mu a (by omega), r 1 (by omega), r 2 (by omega),
      r 3 (by omega)]
    decide

/-- C8 witness: the last firmware byte address 0x3FFF, whose 16- and
32-bit reads also cross into the unmapped region past the firmware. -/
theorem c8_firmware_openbus_witness :
    mmuRead8 (mmuReset mmuInit) 0x3FFF = 0xFF ∧
    mmuRead16 (mmuReset mmuInit) 0x3FFF = 0xFFFF ∧
    mmuRead32 (mmuReset mmuInit) 0x3FFF = 0xFFFFFFFF :=
  c8_firmware_openbus mmuInit 0x3FFF (by decide)

/-- C2: for every address and every 32-bit value, the CPU-level unaligned
word store of v at addr followed by the CPU-level unaligned word load at
the same addr returns exactly v: the rotate-left-by-8*(addr&3) applied on
store and the rotate-right-by-8*(addr&3) applied on load are mutual
inverses for every byte alignment 0-3. -/
theorem c2_rotation_roundtrip (m : Mem) (addr v : Nat) (ha : addr < 2 ^ 32)
    (hv : v < 2 ^ 32) :
    read_u32_unaligned (write_u32_unaligned m addr v) addr = v := by
  unfold read_u32_unaligned write_u32_unaligned
  dsimp only
  rw [and_kWordMask_eq addr ha, and_three_eq_mod]
  rcases (by omega : addr % 4 = 0 ∨ addr % 4 = 1 ∨ addr % 4 = 2 ∨ addr % 4 = 3) with
    h | h | h | h <;> rw [h]
  · rw [show ((32 : Nat) - 0 * 8) &&& 31 = 0 from by decide,
      show ((0 : Nat) * 8) = 0 from by decide, rotr_zero_of_lt v hv,
      mread32_mwrite32 m _ v (by omega) hv, rotr_zero_of_lt v hv]
  · rw [show ((32 : Nat) - 1 * 8) &&& 31 = 24 from by decide,
      show ((1 : Nat) * 8) = 8 from by decide]
    have hw := rotr_eq_arith v 24 hv (by norm_num) (by norm_num)
    norm_num at hw
    rw [hw, mread32_mwrite32 m _ _ (by omega) (by omega)]
    have hw2 := rotr_eq_arith (256 * (v % 16777216) + v / 16777216) 8
      (by omega) (by norm_num) (by norm_num)
    norm_num at hw2
    rw [hw2]
    omega
  · rw [show ((32 : Nat) - 2 * 8) &&& 31 = 16 from by decide,
      show ((2 : Nat) * 8) = 16 from by decide]
    have hw := rotr_eq_arith v 16 hv (by norm_num) (by norm_num)
    norm_num at hw
    rw [hw, mread32_mwrite32 m _ _ (by omega) (by omega)]
    have hw2 := rotr_eq_arith (65536 * (v % 65536) + v / 65536) 16
      (by omega) (by norm_num) (by norm_num)
    norm_num at hw2
    rw [hw2]
    omega
  · rw [show ((32 : Nat) - 3 * 8) &&& 31 = 8 from by decide,
      show ((3 : Nat) * 8) = 24 from by decide]
    have hw := rotr_eq_arith v 8 hv (by norm_num) (by norm_num)
    norm_num at hw
    rw [hw, mread32_mwrite32 m _ _ (by omega) (by omega)]
    have hw2 := rotr_eq_arith (16777216 * (v % 256) + v / 256) 24
      (by omega) (by norm_num) (by norm_num)
    norm_num at hw2
    rw [hw2]
    omega

/-- C2 witness: round trip at the unaligned address 0x02000001 with the
value 0x12345678 over zero-filled memory. -/
theorem c2_rotation_roundtrip_witness :
    read_u32_unaligned (write_u32_unaligned (fun _ => 0) 0x02000001 0x12345678)
      0x02000001 = 0x12345678 :=
  c2_rotation_roundtrip (fun _ => 0) 0x02000001 0x12345678 (by norm_num) (by norm_num)

/-- C1: refuted on the code.  The multi-register pop word 0xBD00 (pop with
the return-address bit set) is dispatched through the push routine: the
decode mask 0xF600 discards bit 11, the only bit separating the pop
encoding (0xBCxx/0xBDxx) from the push encoding (0xB4xx/0xB5xx).  One
step() from SP = 0x03000000, LR = 0x12345678, PC = 0x03001000 with the
return address 0x03000021 on the stack decrements the stack pointer to
0x02FFFFFC and stores the link register there, leaving the program counter
at the next instruction — instead of loading the return address, setting
the program counter to 0x03000020 and advancing the stack pointer to
0x03000004 as the claim requires. -/
theorem c1_pop_decodes_as_push :
    getR (step s1bug m1bug).1 13 = 0x02FFFFFC ∧
    getR (step s1bug m1bug).1 15 = 0x03001002 ∧
    mread32 (step s1bug m1bug).2 0x02FFFFFC = 0x12345678 := by
  decide

/-- C4, counterexample: a word load does not leave all four condition
flags unchanged.  With r0 = 0x10, memory zero at that address and the
instruction LDR r0, [r0, 0] (0x6800) at the program counter, the loaded
value 0 sets the zero flag, which was clear before the step. -/
theorem c4_load_changes_zero_flag :
    (step s4bug m4bug).1.cpsr &&& kFlagZ ≠ s4bug.cpsr &&& kFlagZ := by
  decide

/-- C5: refuted on the code.  From reset, executing MOV r0, 1 and then the
high-register ADD pc, r0 (0x4487) leaves the program counter at 5, so the
following step() fetches from an odd address: the high-register add does
not mask bit 0 of a program-counter destination. -/
theorem c5_pc_can_become_odd :
    getR (step (step cpuReset m5bug).1 (step cpuReset m5bug).2).1 15 = 5 ∧
    getR (step (step cpuReset m5bug).1 (step cpuReset m5bug).2).1 15 % 2 = 1 := by
  decide

/-- C9: refuted on the code.  The logical-shift-left-by-immediate word
LSL r1, r0, 2 (0x0081) matches no pattern in the dispatcher (Thumb format
1 is not implemented), so step() treats it as a no-op: with r0 = 0x55,
register 1 stays 0 instead of becoming 0x154, and the flags are untouched. -/
theorem c9_lsl_is_nop :
    getR (step s9bug m9bug).1 1 = 0 ∧
    (step s9bug m9bug).1.cpsr = s9bug.cpsr ∧
    getR (step s9bug m9bug).1 0 = 0x55 ∧
    getR (step s9bug m9bug).1 15 = 2 := by
  decide

end Gba
